import Mathlib

/-!
Verification of the resume-analyzer core (src/api/index.py) against its
specification.  Python values are modelled by the inductive `PyVal`; Python
floats are modelled by rationals (the inputs at issue are all finite decimal
literals, so no rounding is involved; non-finite floats such as the results of
float("inf") are outside this model).  Exceptions are modelled by `Option`:
`none` means the Python expression raised.
-/

namespace ResumeAnalyzer

/-- Model of a Python value as produced by `json.loads` and manipulated by the
endpoint: `none` is Python `None`, `int`/`float` are the two numeric types
(floats as rationals), `str`, `list`, and `dict` (an insertion-ordered
association list, as Python dicts are). -/
inductive PyVal where
  | none : PyVal
  | bool : Bool → PyVal
  | int : ℤ → PyVal
  | float : ℚ → PyVal
  | str : String → PyVal
  | list : List PyVal → PyVal
  | dict : List (String × PyVal) → PyVal

/-- Python truthiness (`bool(v)`): `None`, `False`, zero, empty string, empty
list and empty dict are falsy. -/
def pyTruthy : PyVal → Bool
  | .none => false
  | .bool b => b
  | .int n => n ≠ 0
  | .float q => q ≠ 0
  | .str s => s ≠ ""
  | .list xs => !xs.isEmpty
  | .dict fs => !fs.isEmpty

/-- Lookup in a Python dict (association list): first binding wins (there is at
most one, since `dictSet` updates in place). -/
def dictGet? (fs : List (String × PyVal)) (k : String) : Option PyVal :=
  match fs with
  | [] => Option.none
  | (k', v) :: rest => if k' = k then some v else dictGet? rest k

/-- `d[k] = v` on a Python dict: replace the existing binding in place, else
append (Python dicts preserve insertion order). -/
def dictSet (fs : List (String × PyVal)) (k : String) (v : PyVal) :
    List (String × PyVal) :=
  match fs with
  | [] => [(k, v)]
  | (k', v') :: rest =>
      if k' = k then (k', v) :: rest else (k', v') :: dictSet rest k v

/-- `d.get(k)` on a `PyVal` known to the caller to be a dict; `Option.none` when
`d` is not a dict (attribute access would raise). -/
def pyDictGet? (d : PyVal) (k : String) : Option PyVal :=
  match d with
  | .dict fs => dictGet? fs k
  | _ => Option.none

/-- Python `str.strip()` whitespace test (ASCII whitespace). -/
def isPySpace (c : Char) : Bool :=
  c == ' ' || c == '\t' || c == '\n' || c == '\r' || c == '\x0b' || c == '\x0c'

/-- Strip leading and trailing whitespace from a character list. -/
def trimChars (cs : List Char) : List Char :=
  (((cs.dropWhile isPySpace).reverse).dropWhile isPySpace).reverse

/-- Python `s.strip()`. -/
def pyStrip (s : String) : String := String.mk (trimChars s.toList)

/-- Decimal value of a digit list (most significant first). -/
def digitsToNat (cs : List Char) : ℕ :=
  cs.foldl (fun acc c => acc * 10 + (c.toNat - 48)) 0

/-- Python `float(s)` on a string: optional surrounding whitespace, optional
sign, digits with at most one dot (at least one digit overall), optional
exponent.  `Option.none` models `ValueError`.  The non-finite literals
(`inf`, `nan`) have no rational value and are treated as failures. -/
def parseFloatString (s : String) : Option ℚ :=
  let cs := trimChars s.toList
  let sgn : ℚ := match cs with | '-' :: _ => -1 | _ => 1
  let cs := match cs with | '+' :: r => r | '-' :: r => r | _ => cs
  let ip := cs.takeWhile Char.isDigit
  let cs := cs.dropWhile Char.isDigit
  let fp := match cs with
    | '.' :: r => r.takeWhile Char.isDigit
    | _ => []
  let cs := match cs with
    | '.' :: r => r.dropWhile Char.isDigit
    | _ => cs
  if ip.isEmpty && fp.isEmpty then Option.none
  else
    let mant : ℚ := sgn * ((digitsToNat ip : ℚ) +
      (digitsToNat fp : ℚ) / (10 : ℚ) ^ fp.length)
    match cs with
    | [] => some mant
    | e :: r =>
      if e = 'e' ∨ e = 'E' then
        let esgn : ℤ := match r with | '-' :: _ => -1 | _ => 1
        let r := match r with | '+' :: r2 => r2 | '-' :: r2 => r2 | _ => r
        let ed := r.takeWhile Char.isDigit
        let r := r.dropWhile Char.isDigit
        if ed.isEmpty || !r.isEmpty then Option.none
        else some (mant * (10 : ℚ) ^ (esgn * (digitsToNat ed : ℤ)))
      else Option.none

/-- Python `float(v)`: succeeds on numbers and booleans and on numeric-literal
strings; raises (`Option.none`) on `None`, lists, dicts and malformed
strings. -/
def pyFloat : PyVal → Option ℚ
  | .int n => some (n : ℚ)
  | .float q => some q
  | .bool b => some (if b then 1 else 0)
  | .str s => parseFloatString s
  | _ => Option.none

/-- `"".join(ch for ch in val if (ch.isdigit() or ch == "."))` — keep ASCII
digits and dots, drop everything else. -/
def stripNonDigitDot (s : String) : String :=
  String.mk (s.toList.filter (fun c => c.isDigit || c == '.'))

/-- The statement `ai_data["ats_score"] = float(ai_data.get("ats_score", 0))`.
`Option.none` models the statement raising: `.get` on a non-dict, or
`float()` failing on the present value. -/
def coerceAts (d : PyVal) : Option PyVal :=
  match d with
  | .dict fs =>
      match pyFloat ((dictGet? fs "ats_score").getD (.int 0)) with
      | some q => some (.dict (dictSet fs "ats_score" (.float q)))
      | Option.none => Option.none
  | _ => Option.none

/-- The value `val = ai_data.get("section_scores", {}).get(k, 0)` after the
string-stripping step (strings keep only digits and dots). -/
def sectionVal (sfs : List (String × PyVal)) (k : String) : PyVal :=
  match (dictGet? sfs k).getD (.int 0) with
  | .str s => PyVal.str (stripNonDigitDot s)
  | v => v

/-- One iteration of the loop `for k in ["Skills", "Experience", "Education"]`:
`ai_data["section_scores"][k] = float(val or 0)` with `val` as above.
`Option.none` models the iteration raising: `.get` on a non-dict
`section_scores` value, `float()` failing, or `KeyError` because the
assignment subscripts `ai_data["section_scores"]` without a default. -/
def coerceSection (k : String) (d : PyVal) : Option PyVal :=
  match d with
  | .dict fs =>
      match (dictGet? fs "section_scores").getD (.dict []) with
      | .dict sfs =>
          match pyFloat (if pyTruthy (sectionVal sfs k) then sectionVal sfs k
              else .int 0) with
          | Option.none => Option.none
          | some q =>
              match dictGet? fs "section_scores" with
              | some (.dict sfs2) =>
                  some (.dict (dictSet fs "section_scores"
                    (.dict (dictSet sfs2 k (.float q)))))
              | _ => Option.none
      | _ => Option.none
  | _ => Option.none

/-- One statement of the normalization `try:` block as a state transformer:
the pair carries the dict (in-place mutation modelled by state passing) and
whether an exception has been raised; a raised exception skips the rest of
the block (the state passes through unchanged) and is swallowed by
`except Exception: pass` afterwards. -/
def normStage (k : String) : PyVal × Bool → PyVal × Bool
  | (d, false) =>
      match coerceSection k d with
      | some d' => (d', false)
      | Option.none => (d, true)
  | (d, true) => (d, true)

/-- The four coercion statements in order: once the flag is set (an exception
was raised) the remaining statements do not run and the state is final. -/
def normRun (d : PyVal) : PyVal × Bool :=
  normStage "Education" (normStage "Experience" (normStage "Skills"
    (match coerceAts d with
     | some d1 => (d1, false)
     | Option.none => (d, true))))

/-- The normalization step as the caller sees it (exceptions swallowed). -/
def normalize (d : PyVal) : PyVal := (normRun d).1

/-- Whether the normalization step raised internally. -/
def normRaised (d : PyVal) : Bool := (normRun d).2

example : parseFloatString "85%" = Option.none := rfl
example : parseFloatString "70" = some 70 := by with_unfolding_all rfl
example : parseFloatString "70.5" = some (141 / 2) := by with_unfolding_all rfl
example : parseFloatString "" = Option.none := rfl
example : parseFloatString "." = Option.none := rfl
example : parseFloatString "1.2.3" = Option.none := rfl
example : parseFloatString "-2e2" = some (-200) := by with_unfolding_all rfl
example : stripNonDigitDot "85%" = "85" := rfl

/-- Outcome of the tier-1 (pdfplumber) pass of `extract_text_from_pdf`: the
library may be missing; the page walk may complete, with each page's
`extract_text()` result (`Option.none` for a page returning Python `None`);
or the `try` body may raise after having appended the truthy page texts
collected up to that point (`text_parts` keeps them). -/
inductive Tier1Result where
  | notAvailable : Tier1Result
  | pages : List (Option String) → Tier1Result
  | raised : List String → Tier1Result

/-- Outcome of the OCR fallback (pdf2image + pytesseract): a library missing,
`convert_from_path` raising, or one entry per page image with `Option.none`
for a page whose `image_to_string` raised (caught per page, loop continues). -/
inductive OcrResult where
  | notAvailable : OcrResult
  | convertRaised : OcrResult
  | images : List (Option String) → OcrResult

/-- The truthy page texts appended by a `if page_text: text_parts.append(...)`
loop. -/
def truthyTexts (ps : List (Option String)) : List String :=
  ps.filterMap (fun o => o.bind (fun t => if t = "" then Option.none else some t))

/-- The texts sitting in `text_parts` when control reaches the OCR fallback. -/
def tier1Collected : Tier1Result → List String
  | .notAvailable => []
  | .pages ps => truthyTexts ps
  | .raised collected => collected

/-- The texts the OCR pass appends to `text_parts`. -/
def tier2Collected : OcrResult → List String
  | .notAvailable => []
  | .convertRaised => []
  | .images rs => truthyTexts rs

/-- `extract_text_from_pdf` (src/api/index.py lines 47-83): try embedded text
first and return immediately when the stripped newline-joined result is
non-empty; otherwise run OCR per page and return the stripped join of
everything collected.  The function is total: every exception in the source
is caught inside it. -/
def extract_text_from_pdf (t1 : Tier1Result) (t2 : OcrResult) : String :=
  match t1 with
  | .pages ps =>
      let combined := pyStrip (String.intercalate "\n" (truthyTexts ps))
      if combined ≠ "" then combined
      else pyStrip (String.intercalate "\n" (truthyTexts ps ++ tier2Collected t2))
  | _ => pyStrip (String.intercalate "\n" (tier1Collected t1 ++ tier2Collected t2))

/-- `random.randint(50, 90)` — inclusive bounds; `raw` is the randomness
consumed, the result `50 + raw % 41` ranges over `[50, 90]`. -/
def randint50to90 (raw : ℕ) : ℕ := 50 + raw % 41

/-- `make_fallback_analysis` (src/api/index.py lines 121-135), parameterised by
the four random draws: integer overall score, float section scores, fixed
keyword and suggestion lists. -/
def make_fallback_analysis (raws : Fin 4 → ℕ) : PyVal :=
  .dict
    [("ats_score", .int (randint50to90 (raws 0) : ℕ)),
     ("section_scores", .dict
       [("Skills", .float (randint50to90 (raws 1) : ℕ)),
        ("Experience", .float (randint50to90 (raws 2) : ℕ)),
        ("Education", .float (randint50to90 (raws 3) : ℕ))]),
     ("missing_keywords", .list [.str "Python", .str "SQL", .str "AWS"]),
     ("suggestions", .list
       [.str "Add cloud skills (AWS/GCP/Azure).",
        .str "Quantify achievements with numbers.",
        .str "Include relevant keywords from the JD."])]

/-- The opening curly brace. -/
def lbraceChar : Char := Char.ofNat 123

/-- The closing curly brace. -/
def rbraceChar : Char := Char.ofNat 125

/-- JSON whitespace. -/
def isJsonWs (c : Char) : Bool := c == ' ' || c == '\t' || c == '\n' || c == '\r'

/-- Drop leading JSON whitespace. -/
def skipWs (cs : List Char) : List Char := cs.dropWhile isJsonWs

/-- Value of a hexadecimal digit. -/
def hexVal? (c : Char) : Option ℕ :=
  if c.isDigit then some (c.toNat - 48)
  else if 'a' ≤ c ∧ c ≤ 'f' then some (c.toNat - 87)
  else if 'A' ≤ c ∧ c ≤ 'F' then some (c.toNat - 55)
  else Option.none

/-- Parse the body of a JSON string, the opening quote already consumed:
returns the decoded characters and the remainder after the closing quote.
Escapes are decoded as by `json.loads` (surrogate-pair recombination is not
modelled; no claim exercises it). -/
def parseJsonStringBody (fuel : ℕ) (cs : List Char) :
    Option (List Char × List Char) :=
  match fuel with
  | 0 => Option.none
  | fuel + 1 =>
    match cs with
    | [] => Option.none
    | c :: rest =>
      if c = '"' then some ([], rest)
      else if c = '\\' then
        match rest with
        | [] => Option.none
        | e :: rest2 =>
          let dec? : Option (Char × List Char) :=
            if e = '"' then some ('"', rest2)
            else if e = '\\' then some ('\\', rest2)
            else if e = '/' then some ('/', rest2)
            else if e = 'b' then some ('\x08', rest2)
            else if e = 'f' then some ('\x0c', rest2)
            else if e = 'n' then some ('\n', rest2)
            else if e = 'r' then some ('\r', rest2)
            else if e = 't' then some ('\t', rest2)
            else if e = 'u' then
              match rest2 with
              | h1 :: h2 :: h3 :: h4 :: rest3 =>
                match hexVal? h1, hexVal? h2, hexVal? h3, hexVal? h4 with
                | some a, some b, some c2, some d =>
                    some (Char.ofNat (((a * 16 + b) * 16 + c2) * 16 + d), rest3)
                | _, _, _, _ => Option.none
              | _ => Option.none
            else Option.none
          match dec? with
          | some (ch, rest') =>
            match parseJsonStringBody fuel rest' with
            | some (out, fin) => some (ch :: out, fin)
            | Option.none => Option.none
          | Option.none => Option.none
      else if c.toNat < 32 then Option.none
      else
        match parseJsonStringBody fuel rest with
        | some (out, fin) => some (c :: out, fin)
        | Option.none => Option.none

/-- Parse a JSON number at the head of `cs`.  `json.loads` yields a Python
`int` when neither fraction nor exponent is present, otherwise a `float`. -/
def parseJsonNumber (cs : List Char) : Option (PyVal × List Char) :=
  let neg : Bool := match cs with | '-' :: _ => true | _ => false
  let cs1 := match cs with | '-' :: r => r | _ => cs
  let ip := cs1.takeWhile Char.isDigit
  let cs2 := cs1.dropWhile Char.isDigit
  let hasDot : Bool := match cs2 with | '.' :: _ => true | _ => false
  let fp := match cs2 with | '.' :: r => r.takeWhile Char.isDigit | _ => []
  let cs3 := match cs2 with | '.' :: r => r.dropWhile Char.isDigit | _ => cs2
  let hasExp : Bool := match cs3 with | 'e' :: _ => true | 'E' :: _ => true | _ => false
  let cs4 := match cs3 with | 'e' :: r => r | 'E' :: r => r | _ => cs3
  let eneg : Bool := match cs4 with | '-' :: _ => true | _ => false
  let cs5 := match cs4 with | '+' :: r => r | '-' :: r => r | _ => cs4
  let ep := if hasExp then cs5.takeWhile Char.isDigit else []
  let rest := if hasExp then cs5.dropWhile Char.isDigit else cs3
  if ip.isEmpty then Option.none
  else if 1 < ip.length && ip.headD '0' == '0' then Option.none
  else if hasDot && fp.isEmpty then Option.none
  else if hasExp && ep.isEmpty then Option.none
  else if !hasDot && !hasExp then
    some (.int (if neg then -(digitsToNat ip : ℤ) else (digitsToNat ip : ℤ)), cs2)
  else
    let mant : ℚ := (digitsToNat ip : ℚ) + (digitsToNat fp : ℚ) / (10 : ℚ) ^ fp.length
    let mant := if neg then -mant else mant
    let e : ℤ := if eneg then -(digitsToNat ep : ℤ) else (digitsToNat ep : ℤ)
    some (.float (mant * (10 : ℚ) ^ e), rest)

/-- What the JSON reader is currently parsing: a value, the members of an
object (`first` marks the position right after the opening brace, `acc` the
bindings read so far, duplicates resolved last-wins as in a Python dict), or
the items of an array. -/
inductive JsonMode where
  | value : JsonMode
  | members : Bool → List (String × PyVal) → JsonMode
  | items : Bool → List PyVal → JsonMode

/-- The recursive JSON reader behind `json.loads`, written with explicit fuel
(one unit per recursive step) so it reduces by kernel evaluation. -/
def parseJsonCore (fuel : ℕ) (mode : JsonMode) (cs : List Char) :
    Option (PyVal × List Char) :=
  match fuel with
  | 0 => Option.none
  | fuel + 1 =>
    match mode with
    | .value =>
      match skipWs cs with
      | [] => Option.none
      | c :: rest =>
        if c = '"' then
          match parseJsonStringBody (rest.length + 1) rest with
          | some (out, fin) => some (.str (String.mk out), fin)
          | Option.none => Option.none
        else if c = lbraceChar then parseJsonCore fuel (.members true []) rest
        else if c = '[' then parseJsonCore fuel (.items true []) rest
        else if c = 't' then
          match rest with
          | 'r' :: 'u' :: 'e' :: fin => some (.bool true, fin)
          | _ => Option.none
        else if c = 'f' then
          match rest with
          | 'a' :: 'l' :: 's' :: 'e' :: fin => some (.bool false, fin)
          | _ => Option.none
        else if c = 'n' then
          match rest with
          | 'u' :: 'l' :: 'l' :: fin => some (.none, fin)
          | _ => Option.none
        else parseJsonNumber (c :: rest)
    | .members first acc =>
      match skipWs cs with
      | [] => Option.none
      | c :: rest =>
        if c = rbraceChar ∧ first then some (.dict acc, rest)
        else if c = '"' then
          match parseJsonStringBody (rest.length + 1) rest with
          | some (kout, afterKey) =>
            match skipWs afterKey with
            | ':' :: afterColon =>
              match parseJsonCore fuel .value afterColon with
              | some (v, afterVal) =>
                let acc2 := dictSet acc (String.mk kout) v
                match skipWs afterVal with
                | ',' :: afterComma =>
                    parseJsonCore fuel (.members false acc2) afterComma
                | d :: afterBrace =>
                    if d = rbraceChar then some (.dict acc2, afterBrace)
                    else Option.none
                | [] => Option.none
              | Option.none => Option.none
            | _ => Option.none
          | Option.none => Option.none
        else Option.none
    | .items first acc =>
      match skipWs cs with
      | [] => Option.none
      | c :: rest =>
        if c = ']' ∧ first then some (.list acc.reverse, rest)
        else
          match parseJsonCore fuel .value (c :: rest) with
          | some (v, afterVal) =>
            match skipWs afterVal with
            | ',' :: afterComma =>
                parseJsonCore fuel (.items false (v :: acc)) afterComma
            | ']' :: afterBracket => some (.list (v :: acc).reverse, afterBracket)
            | _ => Option.none
          | Option.none => Option.none

/-- `json.loads(s)`: parse one JSON value and require only whitespace after
it; `Option.none` models `json.JSONDecodeError`.  (The fuel `2 * length + 2`
dominates the recursion depth: every other recursive step consumes at least
one character.) -/
def json_loads (s : String) : Option PyVal :=
  match parseJsonCore (2 * s.length + 2) .value s.toList with
  | some (v, rest) => if (skipWs rest).isEmpty then some v else Option.none
  | Option.none => Option.none

/-- `re.search(r"(\x7b[\s\S]*\x7d)", s)`: the greedy match runs from the first
opening brace to the last closing brace of the whole string, provided the
latter comes after the former; the matched substring, not necessarily
balanced, is returned. -/
def extractBraced (s : String) : Option String :=
  let cs := s.toList
  match cs.findIdx? (fun c => c == lbraceChar) with
  | some i =>
    match cs.reverse.findIdx? (fun c => c == rbraceChar) with
    | some rj =>
      let j := cs.length - 1 - rj
      if i < j then some (String.mk ((cs.drop i).take (j - i + 1)))
      else Option.none
    | Option.none => Option.none
  | Option.none => Option.none

/-- The response-parsing block of `analyze_resume_endpoint` (src/api/index.py
lines 163-174): strict `json.loads` on the whole text first, then
`json.loads` on the greedy brace match, `Option.none` when both fail or no
brace region matches (`ai_data = None`). -/
def parseAiOutput (s : String) : Option PyVal :=
  match json_loads s with
  | some v => some v
  | Option.none =>
    match extractBraced s with
    | some sub => json_loads sub
    | Option.none => Option.none

/-- Per-request configuration and outcomes of the external calls made by
`analyze_resume_endpoint`: library availability and the credential are fixed
at process startup; `aiResponse` is the text returned by
`analyze_resume_with_gemini` (`Option.none` when that call raised); `raws`
is the randomness `make_fallback_analysis` would consume. -/
structure Env where
  t1 : Tier1Result
  t2 : OcrResult
  genaiAvailable : Bool
  apiKey : Option String
  aiResponse : Option String
  raws : Fin 4 → ℕ

/-- The request: whether the multipart field `resume` is present, and the
value of `jd_text` after `request.form.get("jd", "") or ""`. -/
structure Req where
  hasResume : Bool
  jd : String

/-- Truthiness of `GEMINI_API_KEY`: `None` (unset) and `""` are falsy. -/
def keyTruthy : Option String → Bool
  | Option.none => false
  | some s => !(s == "")

/-- `ai_data` after the `if GENAI_AVAILABLE and GEMINI_API_KEY:` block:
`Option.none` when analysis was skipped, when the remote call raised, or
when both parsing attempts failed; otherwise the parsed value. -/
def aiParsed (env : Env) : Option PyVal :=
  if env.genaiAvailable && keyTruthy env.apiKey then
    match env.aiResponse with
    | some txt => parseAiOutput txt
    | Option.none => Option.none
  else Option.none

/-- The `if not ai_data:` test: the fallback is taken when `ai_data` is `None`
or any falsy value. -/
def fallbackUsed (env : Env) : Bool :=
  match aiParsed env with
  | some v => !pyTruthy v
  | Option.none => true

/-- The analysis dict in hand after the fallback fork. -/
def chosenResult (env : Env) : PyVal :=
  match aiParsed env with
  | some v => if pyTruthy v then v else make_fallback_analysis env.raws
  | Option.none => make_fallback_analysis env.raws

/-- The fixed warning text set when the fallback is used. -/
def warnMsg : String := "Gemini API failed — showing limited fallback results."

/-- `d[k] = v` on a Python value: `Option.none` models `TypeError` (item
assignment on a non-dict). -/
def pySetItem (d : PyVal) (k : String) (v : PyVal) : Option PyVal :=
  match d with
  | .dict fs => some (.dict (dictSet fs k v))
  | _ => Option.none

/-- The debug-block truncation: texts over 2000 characters are cut at 2000
and get a trailing `...` marker. -/
def truncateDebug (s : String) : String :=
  if s.length > 2000 then s.take 2000 ++ "..." else s

/-- HTTP outcome of one request. -/
inductive HttpResponse where
  | ok : PyVal → HttpResponse
  | badRequest : PyVal → HttpResponse
  | serverError : HttpResponse

/-- The request's uniquely named temporary file: `created` records that
`tempfile.NamedTemporaryFile(delete=False, ...)` ran; `deleted` records
whether any later statement removed the file — the handler contains no
deletion call (no `os.remove`/`os.unlink`, no `finally`), so no branch sets
it. -/
structure TmpFile where
  created : Bool
  deleted : Bool

/-- The tail of the handler once the analysis dict `ai1` and the warning
string are fixed: `ai_data["warning"] = warning` (a `TypeError` here — `ai1`
truthy but not a dict — escapes to the outer handler and yields the 500
response), then the swallowed normalization, then the debug block, then
`jsonify(ai_data), 200`.  The temporary file of the request was created with
`delete=False` and no statement of the handler deletes it on any path. -/
def finishRequest (ai1 : PyVal) (w resume_text jd : String) :
    HttpResponse × TmpFile :=
  match pySetItem ai1 "warning" (.str w) with
  | Option.none => (.serverError, ⟨true, false⟩)
  | some d1 =>
    match pySetItem (normalize d1) "debug" (PyVal.dict
        [("resume_text", .str (truncateDebug resume_text)),
         ("jd_text", .str (truncateDebug jd))]) with
    | Option.none => (.serverError, ⟨true, false⟩)
    | some d3 => (.ok d3, ⟨true, false⟩)

/-- `analyze_resume_endpoint` (src/api/index.py lines 139-214), from the
request guard to the response, the outcomes of external calls supplied by
`env`. -/
def analyze_resume_endpoint (env : Env) (req : Req) : HttpResponse × TmpFile :=
  if !req.hasResume then
    (.badRequest (.dict [("error", .str "Resume file is required")]), ⟨false, false⟩)
  else
    finishRequest (chosenResult env) (if fallbackUsed env then warnMsg else "")
      (extract_text_from_pdf env.t1 env.t2) req.jd

/-- Looking up the key just set yields the new value. -/
theorem dictGet?_dictSet_self (fs : List (String × PyVal)) (k : String) (v : PyVal) :
    dictGet? (dictSet fs k v) k = some v := by
  induction fs with
  | nil => simp [dictSet, dictGet?]
  | cons p rest ih =>
      obtain ⟨k', v'⟩ := p
      by_cases h : k' = k
      · subst h; simp [dictSet, dictGet?]
      · simp [dictSet, dictGet?, h, ih]

/-- Setting one key leaves the lookup of any other key unchanged. -/
theorem dictGet?_dictSet_ne (fs : List (String × PyVal)) (k : String) (v : PyVal)
    (k' : String) (h : k ≠ k') :
    dictGet? (dictSet fs k v) k' = dictGet? fs k' := by
  induction fs with
  | nil => simp [dictSet, dictGet?, h]
  | cons p rest ih =>
      obtain ⟨k'', v''⟩ := p
      by_cases hk : k'' = k
      · subst hk; simp [dictSet, dictGet?, h]
      · simp [dictSet, dictGet?, hk, ih]

/-- Shape of a successful `ats_score` coercion: the input was a dict and the
output is that dict with `ats_score` set to a float. -/
theorem coerceAts_some {d d' : PyVal} (h : coerceAts d = some d') :
    ∃ fs q, d = .dict fs ∧ d' = .dict (dictSet fs "ats_score" (.float q)) := by
  cases d <;> simp [coerceAts] at h
  case dict fs =>
    rcases hq : pyFloat ((dictGet? fs "ats_score").getD (.int 0)) with _ | q
    · rw [hq] at h; simp at h
    · rw [hq] at h; simp at h; exact ⟨fs, q, rfl, h.symm⟩


/-- Shape of a successful section coercion: the input was a dict whose
`section_scores` entry was a dict, and the output updates section `k` to a
float inside it. -/
theorem coerceSection_some {k : String} {d d' : PyVal}
    (h : coerceSection k d = some d') :
    ∃ fs sfs q, d = .dict fs ∧ dictGet? fs "section_scores" = some (.dict sfs) ∧
      d' = .dict (dictSet fs "section_scores" (.dict (dictSet sfs k (.float q)))) := by
  cases d
  case dict fs =>
    simp only [coerceSection] at h
    split at h
    next sfs hsfs =>
      split at h
      next hq => simp at h
      next q hq =>
        split at h
        next sfs2 hget =>
          exact ⟨fs, sfs2, q, rfl, hget, (Option.some.inj h).symm⟩
        next hne => simp at h
    next hne => simp at h
  all_goals simp [coerceSection] at h

/-- A successful `ats_score` coercion does not touch other keys. -/
theorem coerceAts_pres {d d' : PyVal} (h : coerceAts d = some d') {k : String}
    (hk : k ≠ "ats_score") : pyDictGet? d' k = pyDictGet? d k := by
  obtain ⟨fs, q, rfl, rfl⟩ := coerceAts_some h
  simp [pyDictGet?, dictGet?_dictSet_ne _ _ _ _ (Ne.symm hk)]

/-- A successful section coercion does not touch keys other than
`section_scores`. -/
theorem coerceSection_pres {k0 : String} {d d' : PyVal}
    (h : coerceSection k0 d = some d') {k : String}
    (hk : k ≠ "section_scores") : pyDictGet? d' k = pyDictGet? d k := by
  obtain ⟨fs, sfs, q, rfl, -, rfl⟩ := coerceSection_some h
  simp [pyDictGet?, dictGet?_dictSet_ne _ _ _ _ (Ne.symm hk)]

/-- A normalization statement never touches keys other than
`section_scores`. -/
theorem normStage_pres (k0 : String) (st : PyVal × Bool) {k : String}
    (hk : k ≠ "section_scores") :
    pyDictGet? (normStage k0 st).1 k = pyDictGet? st.1 k := by
  obtain ⟨d, f⟩ := st
  cases f
  · simp only [normStage]
    split
    next d' hs => exact coerceSection_pres hs hk
    next => rfl
  · rfl

/-- Normalization never touches keys other than `ats_score` and
`section_scores`. -/
theorem normalize_pres {d : PyVal} {k : String} (h1 : k ≠ "ats_score")
    (h2 : k ≠ "section_scores") :
    pyDictGet? (normalize d) k = pyDictGet? d k := by
  unfold normalize normRun
  rw [normStage_pres _ _ h2, normStage_pres _ _ h2, normStage_pres _ _ h2]
  split
  next d1 ha => exact coerceAts_pres ha h1
  next => rfl

/-- A normalization statement maps dict states to dict states. -/
theorem normStage_dict (k0 : String) {st : PyVal × Bool}
    {fs : List (String × PyVal)} (h : st.1 = .dict fs) :
    ∃ fs', (normStage k0 st).1 = .dict fs' := by
  obtain ⟨d, f⟩ := st
  cases f
  · simp only [normStage]
    split
    next d' hs =>
      obtain ⟨a, b, q, -, -, rfl⟩ := coerceSection_some hs
      exact ⟨_, rfl⟩
    next => exact ⟨fs, h⟩
  · exact ⟨fs, h⟩

/-- Normalization maps dicts to dicts (it only ever sets keys). -/
theorem normalize_dict (fs : List (String × PyVal)) :
    ∃ fs', normalize (.dict fs) = .dict fs' := by
  unfold normalize normRun
  have h0 : ∃ fs0, (match coerceAts (.dict fs) with
      | some d1 => (d1, false)
      | Option.none => (.dict fs, true) : PyVal × Bool).1 = PyVal.dict fs0 := by
    split
    next d1 ha =>
      obtain ⟨a, q, -, rfl⟩ := coerceAts_some ha
      exact ⟨_, rfl⟩
    next => exact ⟨fs, rfl⟩
  obtain ⟨fs0, h0⟩ := h0
  obtain ⟨fs1, h1⟩ := normStage_dict "Skills" h0
  obtain ⟨fs2, h2⟩ := normStage_dict "Experience" h1
  obtain ⟨fs3, h3⟩ := normStage_dict "Education" h2
  exact ⟨fs3, h3⟩

/-- Shape of a successful item assignment. -/
theorem pySetItem_some {d d' : PyVal} {k : String} {v : PyVal}
    (h : pySetItem d k v = some d') :
    ∃ fs, d = .dict fs ∧ d' = .dict (dictSet fs k v) := by
  cases d
  case dict fs =>
    simp only [pySetItem, Option.some.injEq] at h
    exact ⟨fs, rfl, h.symm⟩
  all_goals simp [pySetItem] at h

/-- A 200 body always carries, under the key `warning`, exactly the warning
string chosen at the fallback fork. -/
theorem finishRequest_ok {ai1 : PyVal} {w rt jd : String} {b : PyVal}
    {tf : TmpFile} (h : finishRequest ai1 w rt jd = (.ok b, tf)) :
    pyDictGet? b "warning" = some (.str w) := by
  unfold finishRequest at h
  split at h
  · simp at h
  next d1 hset =>
    split at h
    · simp at h
    next d3 hset2 =>
      injection h with h1 h2
      injection h1 with h1
      subst h1
      obtain ⟨fs, -, rfl⟩ := pySetItem_some hset
      obtain ⟨fs3, hnorm, rfl⟩ := pySetItem_some hset2
      have hw := normalize_pres
        (d := .dict (dictSet fs "warning" (.str w))) (k := "warning")
        (by decide) (by decide)
      rw [hnorm] at hw
      simp only [pyDictGet?] at hw ⊢
      rw [dictGet?_dictSet_ne _ _ _ _ (by decide), hw,
        dictGet?_dictSet_self]

/-- On every path through the tail of the handler the temporary file was
created and no statement deleted it. -/
theorem finishRequest_tmp (ai1 : PyVal) (w rt jd : String) :
    (finishRequest ai1 w rt jd).2 = ⟨true, false⟩ := by
  unfold finishRequest
  split
  · rfl
  · split <;> rfl

/-- Evaluation of one section coercion when the section holds a non-zero
float: the value is rewritten to the same float. -/
theorem coerceSection_float {fs sfs : List (String × PyVal)} {k : String} {q : ℚ}
    (hget : dictGet? fs "section_scores" = some (.dict sfs))
    (hval : dictGet? sfs k = some (.float q)) (hq : q ≠ 0) :
    coerceSection k (.dict fs) = some (.dict (dictSet fs "section_scores"
      (.dict (dictSet sfs k (.float q))))) := by
  have hval' : sectionVal sfs k = .float q := by simp [sectionVal, hval]
  have ht : pyTruthy (.float q) = true := by simp [pyTruthy, hq]
  simp only [coerceSection, hget, Option.getD_some, hval', ht, if_true, pyFloat]

/-- The `section_scores` entries of the fallback dict (proof abbreviation). -/
def fbSections (raws : Fin 4 → ℕ) : List (String × PyVal) :=
  [("Skills", .float (randint50to90 (raws 1) : ℕ)),
   ("Experience", .float (randint50to90 (raws 2) : ℕ)),
   ("Education", .float (randint50to90 (raws 3) : ℕ))]

/-- The fallback dict fields after `ats_score`, with the warning already
attached (proof abbreviation). -/
def fbTail (raws : Fin 4 → ℕ) (w : String) : List (String × PyVal) :=
  [("section_scores", .dict (fbSections raws)),
   ("missing_keywords", .list [.str "Python", .str "SQL", .str "AWS"]),
   ("suggestions", .list
     [.str "Add cloud skills (AWS/GCP/Azure).",
      .str "Quantify achievements with numbers.",
      .str "Include relevant keywords from the JD."]),
   ("warning", .str w)]

/-- The fallback dict fields right after `ai_data["warning"] = warning`
(proof abbreviation). -/
def fbFieldsW (raws : Fin 4 → ℕ) (w : String) : List (String × PyVal) :=
  ("ats_score", .int (randint50to90 (raws 0) : ℕ)) :: fbTail raws w

/-- The same fields after normalization: the overall score has become a
float, the sections are rewritten to themselves (proof abbreviation). -/
def fbNormW (raws : Fin 4 → ℕ) (w : String) : List (String × PyVal) :=
  ("ats_score", .float (((randint50to90 (raws 0) : ℕ) : ℤ) : ℚ)) :: fbTail raws w

/-- A `randint(50, 90)` draw is non-zero as a rational. -/
theorem randint_cast_ne_zero (n : ℕ) : ((randint50to90 n : ℕ) : ℚ) ≠ 0 := by
  have : (0 : ℕ) < randint50to90 n := by unfold randint50to90; omega
  exact_mod_cast this.ne'

/-- Normalization of the fallback dict: every coercion succeeds; the overall
score becomes a float and the three section floats are unchanged. -/
theorem normalize_fbW (raws : Fin 4 → ℕ) (w : String) :
    normalize (.dict (fbFieldsW raws w)) = .dict (fbNormW raws w) := by
  have hget : dictGet? (fbNormW raws w) "section_scores" =
      some (.dict (fbSections raws)) := rfl
  have hv1 : dictGet? (fbSections raws) "Skills" =
      some (.float (randint50to90 (raws 1) : ℕ)) := rfl
  have hv2 : dictGet? (fbSections raws) "Experience" =
      some (.float (randint50to90 (raws 2) : ℕ)) := rfl
  have hv3 : dictGet? (fbSections raws) "Education" =
      some (.float (randint50to90 (raws 3) : ℕ)) := rfl
  have e2 : coerceAts (.dict (fbFieldsW raws w)) =
      some (.dict (fbNormW raws w)) := rfl
  have e3 : coerceSection "Skills" (.dict (fbNormW raws w)) =
      some (.dict (fbNormW raws w)) :=
    coerceSection_float hget hv1 (randint_cast_ne_zero (raws 1))
  have e4 : coerceSection "Experience" (.dict (fbNormW raws w)) =
      some (.dict (fbNormW raws w)) :=
    coerceSection_float hget hv2 (randint_cast_ne_zero (raws 2))
  have e5 : coerceSection "Education" (.dict (fbNormW raws w)) =
      some (.dict (fbNormW raws w)) :=
    coerceSection_float hget hv3 (randint_cast_ne_zero (raws 3))
  have h2 : normStage "Skills" (.dict (fbNormW raws w), false) =
      (.dict (fbNormW raws w), false) := by simp only [normStage, e3]
  have h3 : normStage "Experience" (.dict (fbNormW raws w), false) =
      (.dict (fbNormW raws w), false) := by simp only [normStage, e4]
  have h4 : normStage "Education" (.dict (fbNormW raws w), false) =
      (.dict (fbNormW raws w), false) := by simp only [normStage, e5]
  simp only [normalize, normRun, e2, h2, h3, h4]

/-- The full 200 body on the fallback path (proof abbreviation). -/
def fbFinal (raws : Fin 4 → ℕ) (w rt jd : String) : PyVal :=
  .dict (fbNormW raws w ++
    [("debug", .dict
      [("resume_text", .str (truncateDebug rt)),
       ("jd_text", .str (truncateDebug jd))])])

/-- The tail of the handler on the fallback dict: always a 200 with the
normalized fallback fields, warning and debug block. -/
theorem finishRequest_fallback (raws : Fin 4 → ℕ) (w rt jd : String) :
    finishRequest (make_fallback_analysis raws) w rt jd =
      (.ok (fbFinal raws w rt jd), ⟨true, false⟩) := by
  unfold finishRequest
  have e1 : pySetItem (make_fallback_analysis raws) "warning" (.str w) =
      some (.dict (fbFieldsW raws w)) := rfl
  have e6 : pySetItem (.dict (fbNormW raws w)) "debug" (PyVal.dict
      [("resume_text", .str (truncateDebug rt)),
       ("jd_text", .str (truncateDebug jd))]) =
      some (fbFinal raws w rt jd) := rfl
  simp only [e1, normalize_fbW, e6]

/-- When the fallback fork is taken, the dict in hand is the freshly
generated fallback analysis. -/
theorem chosenResult_fallback {env : Env} (hfb : fallbackUsed env = true) :
    chosenResult env = make_fallback_analysis env.raws := by
  unfold chosenResult
  unfold fallbackUsed at hfb
  rcases h : aiParsed env with _ | v
  · rfl
  · rw [h] at hfb
    simp only [Bool.not_eq_true'] at hfb
    simp [hfb]

/-- Lookup of one section score inside a payload. -/
def sectionScore? (b : PyVal) (k : String) : Option PyVal :=
  match pyDictGet? b "section_scores" with
  | some (.dict sfs) => dictGet? sfs k
  | _ => Option.none

/-- C6: for every document whose tier-1 embedded-text extraction yields
non-empty text after stripping, `extract_text_from_pdf` returns exactly that
concatenated stripped text whatever the state of the OCR tier — the OCR
fallback is never exercised. -/
theorem c6_tier1_short_circuits (ps : List (Option String)) (t2 : OcrResult)
    (h : pyStrip (String.intercalate "\n" (truthyTexts ps)) ≠ "") :
    extract_text_from_pdf (.pages ps) t2 =
      pyStrip (String.intercalate "\n" (truthyTexts ps)) := by
  simp [extract_text_from_pdf, h]

/-- Witness for C6: a one-page document with embedded text `Hello`; an OCR
tier that would recognize different text is ignored. -/
theorem c6_witness :
    pyStrip (String.intercalate "\n" (truthyTexts [some "Hello"])) ≠ "" ∧
    extract_text_from_pdf (.pages [some "Hello"]) (.images [some "OCR"]) =
      "Hello" := by
  have h : pyStrip (String.intercalate "\n" (truthyTexts [some "Hello"])) =
      "Hello" := by with_unfolding_all rfl
  refine ⟨by rw [h]; simp, ?_⟩
  rw [c6_tier1_short_circuits [some "Hello"] (.images [some "OCR"])
    (by rw [h]; simp), h]

/-- C7 counterexample: tier 1 failed (the pdfplumber walk raised after
collecting one page's text) and the OCR tier is unavailable — both tiers
failed or were unavailable — yet `extract` returns the collected text, not
the empty string the claim requires. -/
theorem c7_counterexample :
    extract_text_from_pdf (.raised ["Experience"]) .notAvailable =
      "Experience" ∧ ("Experience" : String) ≠ "" := by
  exact ⟨by with_unfolding_all rfl, by simp⟩

/-- C7 amended: `extract` never raises (it is a total function); when both
tiers fail or are unavailable it returns the stripped concatenation of the
page texts collected before the failure — in particular the empty string
when nothing had been collected; and one page's OCR failure contributes
nothing while leaving the other pages' recognized text intact. -/
theorem c7_amended :
    (∀ t1 t2, tier1Collected t1 = [] → tier2Collected t2 = [] →
      extract_text_from_pdf t1 t2 = "") ∧
    (∀ t1 pre post,
      extract_text_from_pdf t1 (.images (pre ++ Option.none :: post)) =
        extract_text_from_pdf t1 (.images (pre ++ post))) := by
  constructor
  · intro t1 t2 h1 h2
    have hnil : pyStrip (String.intercalate "\n" ([] : List String)) = "" := rfl
    cases t1 with
    | pages ps =>
        have hp : truthyTexts ps = [] := h1
        simp only [extract_text_from_pdf, hp, h2, List.nil_append, hnil]
        simp
    | notAvailable =>
        simp only [extract_text_from_pdf, tier1Collected, h2, List.nil_append,
          hnil]
    | raised c =>
        have hc : c = [] := h1
        simp only [extract_text_from_pdf, tier1Collected, hc, h2,
          List.nil_append, hnil]
  · intro t1 pre post
    have ht : tier2Collected (.images (pre ++ Option.none :: post)) =
        tier2Collected (.images (pre ++ post)) := by
      simp [tier2Collected, truthyTexts]
    cases t1 <;> simp [extract_text_from_pdf, ht]

/-- Witness for C7: empty-handed tiers give the empty string, and a failing
middle page changes nothing next to its successful neighbours. -/
theorem c7_witness :
    tier1Collected .notAvailable = [] ∧ tier2Collected .notAvailable = [] ∧
    extract_text_from_pdf .notAvailable .notAvailable = "" ∧
    extract_text_from_pdf (.pages [])
        (.images ([some "a"] ++ Option.none :: [some "b"])) =
      extract_text_from_pdf (.pages []) (.images ([some "a"] ++ [some "b"])) := by
  exact ⟨rfl, rfl, c7_amended.1 .notAvailable .notAvailable rfl rfl,
    c7_amended.2 (.pages []) [some "a"] [some "b"]⟩

/-- C8: every call of the fallback generator succeeds and yields an overall
score and three section scores inside [50, 90] together with the fixed
keyword and suggestion lists — for the randomness of any call, so for
repeated calls too. -/
theorem c8_fallback_ranges (raws : Fin 4 → ℕ) :
    (∃ n : ℤ, pyDictGet? (make_fallback_analysis raws) "ats_score" =
      some (.int n) ∧ 50 ≤ n ∧ n ≤ 90) ∧
    (∃ q : ℚ, sectionScore? (make_fallback_analysis raws) "Skills" =
      some (.float q) ∧ 50 ≤ q ∧ q ≤ 90) ∧
    (∃ q : ℚ, sectionScore? (make_fallback_analysis raws) "Experience" =
      some (.float q) ∧ 50 ≤ q ∧ q ≤ 90) ∧
    (∃ q : ℚ, sectionScore? (make_fallback_analysis raws) "Education" =
      some (.float q) ∧ 50 ≤ q ∧ q ≤ 90) ∧
    pyDictGet? (make_fallback_analysis raws) "missing_keywords" =
      some (.list [.str "Python", .str "SQL", .str "AWS"]) ∧
    pyDictGet? (make_fallback_analysis raws) "suggestions" =
      some (.list
        [.str "Add cloud skills (AWS/GCP/Azure).",
         .str "Quantify achievements with numbers.",
         .str "Include relevant keywords from the JD."]) := by
  have hb : ∀ n : ℕ, 50 ≤ randint50to90 n ∧ randint50to90 n ≤ 90 := by
    intro n
    unfold randint50to90
    omega
  obtain ⟨l0, r0⟩ := hb (raws 0)
  obtain ⟨l1, r1⟩ := hb (raws 1)
  obtain ⟨l2, r2⟩ := hb (raws 2)
  obtain ⟨l3, r3⟩ := hb (raws 3)
  exact ⟨⟨_, rfl, by exact_mod_cast l0, by exact_mod_cast r0⟩,
    ⟨_, rfl, by exact_mod_cast l1, by exact_mod_cast r1⟩,
    ⟨_, rfl, by exact_mod_cast l2, by exact_mod_cast r2⟩,
    ⟨_, rfl, by exact_mod_cast l3, by exact_mod_cast r3⟩, rfl, rfl⟩

/-- The specification's normalization example: string overall score "85%",
section scores "70%", 80 and null. -/
def c2Input : PyVal :=
  .dict [("ats_score", .str "85%"),
         ("section_scores", .dict
           [("Skills", .str "70%"), ("Experience", .int 80),
            ("Education", .none)])]

/-- The same example with an integer overall score instead. -/
def c2InputInt : PyVal :=
  .dict [("ats_score", .int 85),
         ("section_scores", .dict
           [("Skills", .str "70%"), ("Experience", .int 80),
            ("Education", .none)])]

/-- C2 counterexample: on the specification's example the very first
statement, float("85%"), raises ValueError, the swallowed error skips the
whole normalization, and every field keeps its old value — ats_score remains
the string "85%" instead of the claimed 0.0 (and Skills remains "70%"). -/
theorem c2_counterexample :
    normalize c2Input = c2Input ∧
    pyDictGet? (normalize c2Input) "ats_score" ≠ some (.float 0) := by
  have h : normalize c2Input = c2Input := by with_unfolding_all rfl
  refine ⟨h, ?_⟩
  rw [h]
  have hg : pyDictGet? c2Input "ats_score" = some (.str "85%") := by
    with_unfolding_all rfl
  rw [hg]
  simp

/-- C2 amended: on the specification's example the top-level coercion raises
and normalization is skipped wholesale, leaving the input unchanged; the
stated stripping and defaulting rules do hold once every coercion in the
sequence succeeds — with an integer overall score 85 the result is
ats_score 85.0, Skills 70.0 (stripped from "70%"), Experience 80.0 and
Education 0.0 (null defaults to 0). -/
theorem c2_amended :
    normalize c2Input = c2Input ∧ normRaised c2Input = true ∧
    normalize c2InputInt =
      .dict [("ats_score", .float 85),
             ("section_scores", .dict
               [("Skills", .float 70), ("Experience", .float 80),
                ("Education", .float 0)])] ∧
    normRaised c2InputInt = false := by
  exact ⟨by with_unfolding_all rfl, by with_unfolding_all rfl,
    by with_unfolding_all rfl, by with_unfolding_all rfl⟩

/-- An input on which the Skills coercion raises after the overall score has
already been coerced in place. -/
def c9Input : PyVal :=
  .dict [("ats_score", .str "5"),
         ("section_scores", .dict
           [("Skills", .str "1.2.3"), ("Experience", .int 80),
            ("Education", .int 90)])]

/-- C9 counterexample: float("5") succeeds and mutates ats_score in place,
then the Skills coercion raises on the stripped string "1.2.3"; the
swallowed error leaves the result partially coerced, so it differs from its
pre-normalization state. -/
theorem c9_counterexample :
    normRaised c9Input = true ∧ normalize c9Input ≠ c9Input := by
  constructor
  · with_unfolding_all rfl
  · have h : normalize c9Input =
        .dict [("ats_score", .float 5),
               ("section_scores", .dict
                 [("Skills", .str "1.2.3"), ("Experience", .int 80),
                  ("Education", .int 90)])] := by with_unfolding_all rfl
    rw [h]
    simp [c9Input]

/-- C9 amended: normalization never aborts the pipeline — every error is
swallowed — but an error leaves the result in the state reached at the raise
point: coercions applied before the error persist and the failing and
remaining fields keep their old values; only an error at the very first
(top-level ats_score) statement leaves the input exactly unchanged. -/
theorem c9_amended :
    (∀ d : PyVal, coerceAts d = Option.none →
      normalize d = d ∧ normRaised d = true) ∧
    (∀ d d1 : PyVal, coerceAts d = some d1 →
      coerceSection "Skills" d1 = Option.none →
      normalize d = d1 ∧ normRaised d = true) ∧
    (∀ d d1 d2 : PyVal, coerceAts d = some d1 →
      coerceSection "Skills" d1 = some d2 →
      coerceSection "Experience" d2 = Option.none →
      normalize d = d2 ∧ normRaised d = true) ∧
    (∀ d d1 d2 d3 : PyVal, coerceAts d = some d1 →
      coerceSection "Skills" d1 = some d2 →
      coerceSection "Experience" d2 = some d3 →
      coerceSection "Education" d3 = Option.none →
      normalize d = d3 ∧ normRaised d = true) := by
  refine ⟨fun d h => ?_, fun d d1 h h1 => ?_, fun d d1 d2 h h1 h2 => ?_,
    fun d d1 d2 d3 h h1 h2 h3 => ?_⟩ <;>
    simp [normalize, normRaised, normRun, normStage, *]

/-- Witness for C9 (amended): on a non-dict input the attribute access raises
at the first statement and the value is returned unchanged. -/
theorem c9_witness :
    normalize (.int 3) = .int 3 ∧ normRaised (.int 3) = true :=
  c9_amended.1 (.int 3) rfl

/-- C5 counterexample: the response embeds the JSON object `\x7b"a": 1\x7d`
in prose, but a stray closing brace after it makes the greedy first-to-last
brace match unparseable, so the parser returns null instead of the embedded
object the claim promises. -/
theorem c5_counterexample :
    json_loads "\x7b\"a\": 1\x7d" = some (.dict [("a", .int 1)]) ∧
    extractBraced "x \x7b\"a\": 1\x7d y\x7d" = some "\x7b\"a\": 1\x7d y\x7d" ∧
    parseAiOutput "x \x7b\"a\": 1\x7d y\x7d" = Option.none := by
  exact ⟨by with_unfolding_all rfl, by with_unfolding_all rfl,
    by with_unfolding_all rfl⟩

set_option maxRecDepth 4000 in
/-- C5 amended: strict whole-string parsing is attempted first and wins when
it succeeds; otherwise the greedily matched first-brace-to-last-brace
substring is parsed without any balance check, and the result is null when
that fails too or when no brace region matches.  An object embedded in prose
is recovered when no stray brace surrounds it, as on the specification's
example; a response with no JSON yields null. -/
theorem c5_amended :
    (∀ s v, json_loads s = some v → parseAiOutput s = some v) ∧
    (∀ s, json_loads s = Option.none →
      parseAiOutput s = (match extractBraced s with
        | some sub => json_loads sub
        | Option.none => Option.none)) ∧
    parseAiOutput "blah \x7b\"ats_score\": 70, \"section_scores\": \x7b\"Skills\":1,\"Experience\":2,\"Education\":3\x7d, \"missing_keywords\":[], \"suggestions\":[]\x7d trailing" =
      some (.dict
        [("ats_score", .int 70),
         ("section_scores", .dict
           [("Skills", .int 1), ("Experience", .int 2), ("Education", .int 3)]),
         ("missing_keywords", .list []), ("suggestions", .list [])]) ∧
    parseAiOutput "not json at all" = Option.none := by
  refine ⟨fun s v h => ?_, fun s h => ?_, by with_unfolding_all rfl,
    by with_unfolding_all rfl⟩
  · simp [parseAiOutput, h]
  · simp [parseAiOutput, h]

/-- Witness for C5 (amended): a whole-string JSON object parses strictly. -/
theorem c5_witness :
    json_loads "\x7b\x7d" = some (.dict []) ∧
    parseAiOutput "\x7b\x7d" = some (.dict []) :=
  ⟨by with_unfolding_all rfl,
    c5_amended.1 "\x7b\x7d" (.dict []) (by with_unfolding_all rfl)⟩

/-- An environment with no AI capability and deterministic draws. -/
def c4Env : Env :=
  ⟨.notAvailable, .notAvailable, false, Option.none, Option.none, fun _ => 0⟩

/-- C4 counterexample: a request that completes with HTTP 200 whose uniquely
named temporary file was created before extraction but never removed — the
handler opens it with delete=False and contains no deletion statement. -/
theorem c4_counterexample :
    (analyze_resume_endpoint c4Env ⟨true, ""⟩).2.created = true ∧
    (analyze_resume_endpoint c4Env ⟨true, ""⟩).2.deleted = false ∧
    (analyze_resume_endpoint c4Env ⟨true, ""⟩).1 =
      .ok (fbFinal c4Env.raws warnMsg "" "") := by
  exact ⟨by with_unfolding_all rfl, by with_unfolding_all rfl,
    by with_unfolding_all rfl⟩

/-- C4 amended: on every request that passes the resume-presence guard the
temporary file is created before extraction and is not removed when the
request completes — on success and error paths alike the file stays behind
(`delete=False`, and no statement of the handler deletes it). -/
theorem c4_amended (env : Env) (req : Req) (h : req.hasResume = true) :
    (analyze_resume_endpoint env req).2.created = true ∧
    (analyze_resume_endpoint env req).2.deleted = false := by
  have ht := finishRequest_tmp (chosenResult env)
    (if fallbackUsed env then warnMsg else "")
    (extract_text_from_pdf env.t1 env.t2) req.jd
  simp [analyze_resume_endpoint, h, ht]

/-- Witness for C4 (amended): the no-AI request again. -/
theorem c4_witness :
    (analyze_resume_endpoint c4Env ⟨true, "jd"⟩).2.created = true ∧
    (analyze_resume_endpoint c4Env ⟨true, "jd"⟩).2.deleted = false :=
  c4_amended c4Env ⟨true, "jd"⟩ rfl

/-- An environment in which the AI call succeeds and returns a truthy JSON
object that lacks the `section_scores` mapping. -/
def c1Env : Env :=
  ⟨.notAvailable, .notAvailable, true, some "k",
   some "\x7b\"ats_score\": 70\x7d", fun _ => 0⟩

/-- The 200 body produced for `c1Env`: no section scores at all. -/
def c1Body : PyVal :=
  .dict [("ats_score", .float 70), ("warning", .str ""),
         ("debug", .dict [("resume_text", .str ""), ("jd_text", .str "")])]

/-- C1 counterexample: the parsed AI result `\x7b"ats_score": 70\x7d` is
truthy, so no fallback runs; during normalization the section loop raises
KeyError at the assignment `ai_data["section_scores"][k] = ...` because the
key is absent, the error is swallowed, and the request returns HTTP 200
with a payload carrying none of the three section scores. -/
theorem c1_counterexample :
    (analyze_resume_endpoint c1Env ⟨true, ""⟩).1 = .ok c1Body ∧
    pyDictGet? c1Body "section_scores" = Option.none ∧
    sectionScore? c1Body "Skills" = Option.none := by
  exact ⟨by with_unfolding_all rfl, by with_unfolding_all rfl,
    by with_unfolding_all rfl⟩

/-- C1 amended: every 200 payload produced from the fallback result carries
all five score fields present and of float type; when a truthy parsed AI
result is used instead, the guarantee additionally requires the parsed
`section_scores` mapping to be present and every coercion to succeed — a
parsed result without it yields a 200 payload lacking the section fields. -/
theorem c1_amended (env : Env) (req : Req) (b : PyVal) (tf : TmpFile)
    (h : analyze_resume_endpoint env req = (.ok b, tf))
    (hfb : fallbackUsed env = true) :
    (∃ q : ℚ, pyDictGet? b "ats_score" = some (.float q)) ∧
    (∃ q : ℚ, sectionScore? b "Skills" = some (.float q)) ∧
    (∃ q : ℚ, sectionScore? b "Experience" = some (.float q)) ∧
    (∃ q : ℚ, sectionScore? b "Education" = some (.float q)) := by
  unfold analyze_resume_endpoint at h
  rw [if_pos hfb] at h
  split at h
  · simp at h
  · rw [chosenResult_fallback hfb] at h
    rw [finishRequest_fallback] at h
    injection h with h1 h2
    injection h1 with h1
    subst h1
    exact ⟨⟨_, rfl⟩, ⟨_, rfl⟩, ⟨_, rfl⟩, ⟨_, rfl⟩⟩

/-- Witness for C1 (amended): the no-AI request returns all five scores as
floats. -/
theorem c1_witness :
    (∃ q : ℚ, pyDictGet? (fbFinal c1Env.raws warnMsg "" "") "ats_score" =
      some (.float q)) ∧
    (∃ q : ℚ, sectionScore? (fbFinal c1Env.raws warnMsg "" "") "Skills" =
      some (.float q)) ∧
    (∃ q : ℚ, sectionScore? (fbFinal c1Env.raws warnMsg "" "") "Experience" =
      some (.float q)) ∧
    (∃ q : ℚ, sectionScore? (fbFinal c1Env.raws warnMsg "" "") "Education" =
      some (.float q)) :=
  c1_amended ⟨.notAvailable, .notAvailable, false, Option.none, Option.none,
      c1Env.raws⟩ ⟨true, ""⟩
    (fbFinal c1Env.raws warnMsg "" "") ⟨true, false⟩
    (by with_unfolding_all rfl) rfl

/-- An environment in which the AI capability is configured, the call
succeeds, and its response is the empty JSON object. -/
def c3Env : Env :=
  ⟨.notAvailable, .notAvailable, true, some "key", some "\x7b\x7d", fun _ => 0⟩

/-- An environment with the AI capability absent. -/
def c3EnvOff : Env :=
  ⟨.notAvailable, .notAvailable, false, Option.none, Option.none, fun _ => 1⟩

/-- C3 counterexample: the AI analysis was not skipped (capability
configured), did not fail (the call returned text and its strict parse
succeeded), and did not parse to null — it parsed to the empty object — yet
the 200 payload carries the non-empty fallback warning. -/
theorem c3_counterexample :
    c3Env.genaiAvailable = true ∧ keyTruthy c3Env.apiKey = true ∧
    c3Env.aiResponse = some "\x7b\x7d" ∧
    parseAiOutput "\x7b\x7d" = some (.dict []) ∧
    aiParsed c3Env = some (.dict []) ∧
    analyze_resume_endpoint c3Env ⟨true, ""⟩ =
      (.ok (fbFinal c3Env.raws warnMsg "" ""), ⟨true, false⟩) ∧
    pyDictGet? (fbFinal c3Env.raws warnMsg "" "") "warning" =
      some (.str warnMsg) ∧
    warnMsg ≠ "" := by
  refine ⟨rfl, rfl, rfl, by with_unfolding_all rfl, by with_unfolding_all rfl,
    by with_unfolding_all rfl, by with_unfolding_all rfl, by simp [warnMsg]⟩

/-- C3 amended: the warning of a 200 payload is the non-empty fixed fallback
message exactly when the fallback result was used — analysis skipped, the
call failed, or the response parsed to null or to any other falsy value —
and the empty string exactly when a truthy parsed result was used. -/
theorem c3_amended (env : Env) (req : Req) (b : PyVal) (tf : TmpFile)
    (h : analyze_resume_endpoint env req = (.ok b, tf)) :
    (fallbackUsed env = true →
      pyDictGet? b "warning" = some (.str warnMsg)) ∧
    (fallbackUsed env = false →
      pyDictGet? b "warning" = some (.str "")) ∧
    warnMsg ≠ "" := by
  refine ⟨fun hfb => ?_, fun hfb => ?_, by simp [warnMsg]⟩
  · unfold analyze_resume_endpoint at h
    rw [if_pos hfb] at h
    split at h
    · simp at h
    · exact finishRequest_ok h
  · unfold analyze_resume_endpoint at h
    have hne : ¬ (fallbackUsed env = true) := by simp [hfb]
    rw [if_neg hne] at h
    split at h
    · simp at h
    · exact finishRequest_ok h

/-- Witness for C3 (amended): with no AI capability the payload carries the
fallback warning. -/
theorem c3_witness :
    fallbackUsed c3EnvOff = true ∧
    pyDictGet? (fbFinal c3EnvOff.raws warnMsg "" "") "warning" =
      some (.str warnMsg) :=
  ⟨rfl, (c3_amended c3EnvOff ⟨true, ""⟩ (fbFinal c3EnvOff.raws warnMsg "" "")
    ⟨true, false⟩ (by with_unfolding_all rfl)).1 rfl⟩

/-- An environment in which the AI call succeeds and its response parses to
the falsy JSON value 0. -/
def c10Env : Env :=
  ⟨.notAvailable, .notAvailable, true, some "k", some "0", fun _ => 2⟩

/-- C10: whenever the AI call succeeds and its response parses to a falsy
JSON value (empty object, 0, null, false, empty string or empty list), the
parsed value is discarded: the fallback fork is taken and the whole response
coincides with the response of the same request with the AI capability
disabled — exactly as if parsing had failed. -/
theorem c10_falsy_discarded (env : Env) (req : Req) (txt : String) (v : PyVal)
    (hconf : env.genaiAvailable = true) (hkey : keyTruthy env.apiKey = true)
    (hresp : env.aiResponse = some txt) (hparse : parseAiOutput txt = some v)
    (hfalsy : pyTruthy v = false) :
    fallbackUsed env = true ∧
    analyze_resume_endpoint env req =
      analyze_resume_endpoint
        ⟨env.t1, env.t2, false, env.apiKey, env.aiResponse, env.raws⟩ req := by
  have hai : aiParsed env = some v := by
    simp [aiParsed, hconf, hkey, hresp, hparse]
  have hfb : fallbackUsed env = true := by
    simp [fallbackUsed, hai, hfalsy]
  have hfb' : fallbackUsed
      ⟨env.t1, env.t2, false, env.apiKey, env.aiResponse, env.raws⟩ = true := by
    simp [fallbackUsed, aiParsed]
  refine ⟨hfb, ?_⟩
  unfold analyze_resume_endpoint
  rw [chosenResult_fallback hfb, chosenResult_fallback hfb', hfb, hfb']

/-- Witness for C10: the response "0" parses to the falsy integer 0 and the
request behaves as with the capability disabled. -/
theorem c10_witness :
    fallbackUsed c10Env = true ∧
    analyze_resume_endpoint c10Env ⟨true, ""⟩ =
      analyze_resume_endpoint
        ⟨c10Env.t1, c10Env.t2, false, c10Env.apiKey, c10Env.aiResponse,
         c10Env.raws⟩ ⟨true, ""⟩ :=
  c10_falsy_discarded c10Env ⟨true, ""⟩ "0" (.int 0) rfl rfl rfl
    (by with_unfolding_all rfl) (by with_unfolding_all rfl)

end ResumeAnalyzer
